import Mathlib

/-!
Verification of the MACRO ECG classification model core against its
natural-language specification.

The development shallowly embeds the two source files:
  * `layers/MultiHeadAttention.py` (multi-head attention block), and
  * `model/final_model.py` (`FinalModel.__init__` validation and
    `FinalModel.forward` wiring),
value-level where the computation is in the source, and shape-level where
the claim is about tensor shapes.  Machine floats are modelled by the
rationals; the exponential used by softmax and the square root used as the
score scale are abstract parameters (`e`, `s`) since neither is exactly
representable in any executable field.
-/

namespace Macro

/-- A rank-3 tensor of shape `(n, l, d)`, entries in ℚ (modelling floats). -/
abbrev T3 (n l d : ℕ) := Fin n → Fin l → Fin d → ℚ

/-- `torch.bmm`: batched matrix multiplication `(n, p, q) x (n, q, r) -> (n, p, r)`. -/
def bmm {n p q r : ℕ} (A : T3 n p q) (B : T3 n q r) : T3 n p r :=
  fun i j k => ∑ m : Fin q, A i j m * B i m k

/-- `Tensor.transpose(1, 2)`: swap the last two axes of a rank-3 tensor. -/
def transpose12 {n p q : ℕ} (A : T3 n p q) : T3 n q p :=
  fun i j k => A i k j

/-- `F.softmax(t, dim=-1)` with the exponential abstracted as `e`:
each entry is `e` of the entry divided by the row sum of `e` over the
last axis. -/
def softmax {n l d : ℕ} (e : ℚ → ℚ) (t : T3 n l d) : T3 n l d :=
  fun i j k => e (t i j k) / ∑ m : Fin d, e (t i j m)

/-- Elementwise division of a rank-3 tensor by a scalar (the source divides
the raw scores by `np.sqrt(self._k)`; the scalar `s` stands for that root). -/
def scaleDiv {n l d : ℕ} (s : ℚ) (t : T3 n l d) : T3 n l d :=
  fun i j k => t i j k / s

/-- `nn.Linear(din, dout)` applied to a rank-3 input along the last axis:
`y[i,j,k] = sum_m W[k,m] * x[i,j,m] + b[k]`. -/
def linear3 {n l din dout : ℕ} (W : Fin dout → Fin din → ℚ) (b : Fin dout → ℚ)
    (x : T3 n l din) : T3 n l dout :=
  fun i j k => (∑ m : Fin din, W k m * x i j m) + b k

/-- Elementwise application of a scalar function (models `nn.Tanh` with the
hyperbolic tangent abstracted). -/
def mapT3 {n l d : ℕ} (f : ℚ → ℚ) (t : T3 n l d) : T3 n l d :=
  fun i j k => f (t i j k)

/-- `torch.cat(t.chunk(h, dim=-1), dim=0)` for `t` of shape `(b, l, h*d)`:
the `h` feature chunks of width `d` are stacked along the batch axis,
giving shape `(h*b, l, d)`; head `c`, batch `i` lands at batch index
`c*b + i`, so batch index `i` of the result reads chunk `i / b` at
original batch `i % b` (source lines 107 to 109). -/
def headSplit (h : ℕ) {b l d : ℕ} (t : T3 b l (h * d)) : T3 (h * b) l d :=
  fun i j k =>
    have hb : 0 < b := by
      rcases Nat.eq_zero_or_pos b with h0 | h0
      · exact absurd i.isLt (by simp [h0])
      · exact h0
    t ⟨i.val % b, Nat.mod_lt _ hb⟩ j
      ⟨i.val / b * d + k.val, by
        have hih : i.val / b < h := Nat.div_lt_of_lt_mul
          (Nat.lt_of_lt_of_le i.isLt (Nat.le_of_eq (Nat.mul_comm h b)))
        calc i.val / b * d + k.val < i.val / b * d + d := by omega
          _ = (i.val / b + 1) * d := by ring
          _ ≤ h * d := Nat.mul_le_mul_right d hih⟩

/-- `torch.cat(t.chunk(h, dim=0), dim=-1)` for `t` of shape `(h*b, l, d)`:
the `h` batch chunks of size `b` are laid side by side along the feature
axis, giving shape `(b, l, h*d)`; feature index `k` of the result reads
chunk `k / d` at feature `k % d` (source line 123). -/
def headConcat (h : ℕ) {b l d : ℕ} (t : T3 (h * b) l d) : T3 b l (h * d) :=
  fun i j k =>
    have hd : 0 < d := by
      rcases Nat.eq_zero_or_pos d with h0 | h0
      · exact absurd k.isLt (by simp [h0])
      · exact h0
    t ⟨k.val / d * b + i.val, by
        have hkh : k.val / d < h := Nat.div_lt_of_lt_mul
          (Nat.lt_of_lt_of_le k.isLt (Nat.le_of_eq (Nat.mul_comm h d)))
        calc k.val / d * b + i.val < k.val / d * b + b := by omega
          _ = (k.val / d + 1) * b := by ring
          _ ≤ h * b := Nat.mul_le_mul_right b hkh⟩ j
      ⟨k.val % d, Nat.mod_lt _ hd⟩

/-- A realized application of `nn.Dropout(p)` in training mode: entry
`(i,j,k)` is zeroed when the sampled Bernoulli mask `m` dropped it, and
scaled by `1 / (1 - p)` otherwise.  In eval mode, or when the module was
constructed with `dropout=None`, no dropout is applied; callers model that
with `Option.none` at the call site. -/
def applyDropout {n l d : ℕ} (p : ℚ) (m : Fin n → Fin l → Fin d → Bool)
    (t : T3 n l d) : T3 n l d :=
  fun i j k => if m i j k then 0 else t i j k / (1 - p)

/-- The learned parameters of `MultiHeadAttention` (source lines 53 to 65):
`W_q : Linear(d_model, q*h)`, `W_k : Linear(d_model, k*h)` (optionally
followed by `Tanh`), `W_v : Linear(d_model, v*h)`, `W_o : Linear(h*v,
d_model)`.  The source exposes separate `q` and `k` sizes, but the `bmm`
at line 112 is only defined when they coincide, so the embedding uses one
per-head query and key size `dk`.  Output widths are written `h * dk` etc.
so that the `chunk` into `h` heads typechecks directly. -/
structure MHAWeights (dm dk v h : ℕ) where
  Wq : Fin (h * dk) → Fin dm → ℚ
  bq : Fin (h * dk) → ℚ
  Wk : Fin (h * dk) → Fin dm → ℚ
  bk : Fin (h * dk) → ℚ
  Wv : Fin (h * v) → Fin dm → ℚ
  bv : Fin (h * v) → ℚ
  Wo : Fin dm → Fin (h * v) → ℚ
  bo : Fin dm → ℚ

/-- The scaled dot-product attention core of `MultiHeadAttention.forward`
with dropout disabled (source lines 112, 115 and 120): raw scores
`bmm(Q, K.transpose(1,2))` divided by the scalar `s` (standing for
`np.sqrt(self._k)`), softmax over the key axis, then `bmm` with `V`. -/
def sdpCore {n lq lk dk dv : ℕ} (e : ℚ → ℚ) (s : ℚ)
    (Q : T3 n lq dk) (K : T3 n lk dk) (V : T3 n lk dv) : T3 n lq dv :=
  bmm (softmax e (scaleDiv s (bmm Q (transpose12 K)))) V

/-- The attention formula as the specification words it: the result at
`(i, j, k)` is the softmax-weighted (over the key axis) sum of the values,
with score `(Q_ij . K_im) / s` where `s` stands for `sqrt(dk)`. -/
def attentionSpecFormula {n lq lk dk dv : ℕ} (e : ℚ → ℚ) (s : ℚ)
    (Q : T3 n lq dk) (K : T3 n lk dk) (V : T3 n lk dv) : T3 n lq dv :=
  fun i j k =>
    ∑ m : Fin lk,
      (e ((∑ r : Fin dk, Q i j r * K i m r) / s) /
        ∑ m2 : Fin lk, e ((∑ r : Fin dk, Q i j r * K i m2 r) / s)) * V i m k

/-- The key projection of `MultiHeadAttention` (source lines 55 to 61):
plain `Linear` normally, `Linear` followed by `Tanh` (abstracted as `th`)
when `discard_FC_before_MH` is set. -/
def keyProjection {b lk dm kk h : ℕ} (th : ℚ → ℚ) (discardFC : Bool)
    (Wk : Fin (h * kk) → Fin dm → ℚ) (bk : Fin (h * kk) → ℚ)
    (key : T3 b lk dm) : T3 b lk (h * kk) :=
  if discardFC then mapT3 th (linear3 Wk bk key) else linear3 Wk bk key

/-- `MultiHeadAttention.forward` (source lines 106 to 126) up to the final
`.squeeze()`, which only reshapes and is modelled at shape level by
`mhaReturnShape`.  Parameters: `e` abstracts the softmax exponential, `th`
the tanh, `s` stands for `np.sqrt(self._k)`, `drop` is the realized
dropout (`none` when the module has no dropout or is in eval mode), and
`mask` is the mask argument of the Python signature.  The body never reads
`mask`, exactly as in the source.  Returns the `W_o` output together with
the final value of the `_scores` field. -/
def mhaForward {dm dk v h b lq lk : ℕ} (e th : ℚ → ℚ) (s : ℚ)
    (discardFC : Bool) (w : MHAWeights dm dk v h)
    (drop : Option (ℚ × (Fin (h * b) → Fin lq → Fin lk → Bool)))
    (mask : Option String)
    (query : T3 b lq dm) (key : T3 b lk dm) (value : T3 b lk dm) :
    T3 b lq dm × T3 (h * b) lq lk :=
  let queries := headSplit h (linear3 w.Wq w.bq query)
  let keys := headSplit h (keyProjection th discardFC w.Wk w.bk key)
  let values := headSplit h (linear3 w.Wv w.bv value)
  let scoresRaw := scaleDiv s (bmm queries (transpose12 keys))
  let scoresSm := softmax e scoresRaw
  let scoresFinal := match drop with
    | none => scoresSm
    | some (p, m) => applyDropout p m scoresSm
  let attention := bmm scoresFinal values
  let attentionHeads := headConcat h attention
  (linear3 w.Wo w.bo attentionHeads, scoresFinal)

/-- The softmax-normalized attention weights computed at source line 115,
before any dropout: softmax of the scaled query-key scores. -/
def mhaNormalizedScores {dm dk v h b lq lk : ℕ} (e th : ℚ → ℚ) (s : ℚ)
    (discardFC : Bool) (w : MHAWeights dm dk v h)
    (query : T3 b lq dm) (key : T3 b lk dm) : T3 (h * b) lq lk :=
  softmax e (scaleDiv s
    (bmm (headSplit h (linear3 w.Wq w.bq query))
      (transpose12 (headSplit h (keyProjection th discardFC w.Wk w.bk key)))))

/-- A tensor shape as a list of axis sizes. -/
abbrev Shape := List ℕ

/-- `Tensor.squeeze()` with no arguments: removes every axis of size 1. -/
def squeezeShape (s : Shape) : Shape := s.filter (fun d => d ≠ 1)

/-- The shape returned by `MultiHeadAttention.forward`: the `W_o` output
has shape `(b, lq, dm)` and source line 128 returns its `.squeeze()`. -/
def mhaReturnShape (b lq dm : ℕ) : Shape := squeezeShape [b, lq, dm]

/-- The five contextual attention variants selectable by `attention_type`. -/
inductive AttnVariant
  | v1 | v2 | v3 | v4 | v5
deriving DecidableEq

/-- Row normalization applied to the raw attention scores by each variant.
Variant v1 is the softmax at source line 115 of `MultiHeadAttention.py`.
Modelled from the spec: the source files of variants v2 to v5 are not
under `src/`; per the spec they delegate the attention computation to the
standard library multi-head attention primitive, which likewise normalizes
each query row by softmax over the key axis. -/
def variantNormalize {n l d : ℕ} : AttnVariant → (ℚ → ℚ) → T3 n l d → T3 n l d
  | _, e, t => softmax e t

/-- Zero-initialized weights at the smallest sizes, used for concrete
evaluations. -/
def w0 : MHAWeights 1 1 1 1 :=
  ⟨fun _ _ => 0, fun _ => 0, fun _ _ => 0, fun _ => 0,
   fun _ _ => 0, fun _ => 0, fun _ _ => 0, fun _ => 0⟩

/-- The all-zero tensor. -/
def zeroT3 (n l d : ℕ) : T3 n l d := fun _ _ _ => 0

/-- The construction-time configuration surface of `FinalModel.__init__`
(source lines 12 to 26), restricted to the parameters that take part in
validation or shape behavior.  `normBeforeAct` is `Option Bool` because
the Python argument may be `None`. -/
structure FMConfig where
  applyFinalActivation : Bool
  multiLabelTraining : Bool
  inputChannel : ℕ
  numClasses : ℕ
  downSample : String
  varyChannels : Bool
  posSkip : String
  normType : String
  normBeforeAct : Option Bool
  usePreActivationDesign : Bool
  usePreConv : Bool
  preConvKernel : ℕ
  gruUnits : ℕ
  heads : ℕ
  discardFCBeforeMH : Bool
  useReducedHeadDims : Option ℕ
  attentionActivationFunction : Option String
  attentionType : String

/-- Python truthiness of an optional integer (`if use_reduced_head_dims:`
at source line 45): `None` and `0` are falsy. -/
def optNatTruthy : Option ℕ → Bool
  | none => false
  | some n => n != 0

/-- The downsampling tags accepted at source line 36. -/
abbrev validDownSampleTag (s : String) : Prop :=
  s = "conv" ∨ s = "max_pool" ∨ s = "avg_pool"

/-- The attention type tags with a `match` arm at source lines 239 to 273. -/
abbrev validAttentionTag (s : String) : Prop :=
  s = "v1" ∨ s = "v2" ∨ s = "v3" ∨ s = "v4" ∨ s = "v5"

/-- The normalization tags handled at source lines 74 to 77. -/
abbrev validNormTag (s : String) : Prop := s = "BN" ∨ s = "IN"

/-- `FinalModel.__init__` (source lines 33 to 287) as a construction-time
validator: the checks appear in source order and the raised exception
messages are carried as strings (with Python quoting elided).  An
unrecognized `norm_type` is never itself asserted on; when the
pre-activation design and the pre-convolution are both enabled it leaves
`starting_norm` unbound at lines 74 to 77 and line 81 then raises a
`NameError`.  The residual blocks, GRU, attention and classifier modules
constructed between the checks are modelled from the spec (their sources
are not under `src/`) as always constructible once the preceding checks
passed, and an unmatched `attention_type` raises the `ValueError` of line
275, which names the value. -/
def initModel (c : FMConfig) : Except String Unit :=
  if ¬validDownSampleTag c.downSample then
    .error "Downsampling should either be conv or max_pool or avg_pool"
  else if ¬(c.useReducedHeadDims = none ∨ c.attentionType = "v1") then
    .error "use_reduced_head_dims can only be used with attention_type=v1!"
  else if ¬(c.attentionActivationFunction = none ∨ c.attentionType = "v1") then
    .error "attention_activation_function can only be used with attention_type=v1!"
  else if optNatTruthy c.useReducedHeadDims ∧ ¬(2 * c.gruUnits % c.heads = 0) then
    .error "Twice the number of GRU cells (d_model) must be divisible by num_heads!"
  else if c.usePreActivationDesign ∧ ¬(c.posSkip = "all" ∨ c.posSkip = "not_last") then
    .error "For the preactivation design, not_first is no valid option for the skip connections! Choose between all and not_last"
  else if ¬c.usePreActivationDesign ∧ ¬(c.normBeforeAct = none ∨ c.normBeforeAct = some true) then
    .error "Norm after activation not possible without preactivation design"
  else if c.usePreActivationDesign ∧ c.usePreConv ∧ ¬validNormTag c.normType then
    .error "NameError: name starting_norm is not defined"
  else if ¬validAttentionTag c.attentionType then
    .error ("Attention type " ++ c.attentionType ++ " not supported!")
  else
    .ok ()

/-- `nn.Conv1d(ch, ch, kernel)` with stride 1 on a rank-3 input:
`(n, ch, l)` maps to `(n, ch, l - kernel + 1)`; a channel mismatch or an
input shorter than the kernel is a runtime error. -/
def conv1dShape (ch kernel : ℕ) : Shape → Option Shape
  | [n, c, l] =>
      if c = ch ∧ 0 < kernel ∧ kernel ≤ l then some [n, c, l - kernel + 1]
      else none
  | _ => none

/-- Modelled from the spec: the I/O contract of `BasicBlock1dWithNorm` and
`BasicBlock1dWithNormPreactivation` (spec 4.4, sources not under `src/`):
a block configured for `cin` input and `cout` output channels maps
`(n, cin, l)` to `(n, cout, f l)` where `f` is the deterministic length
map induced by its stride, kernel and downsampling configuration; a
channel mismatch is a runtime error.  The pre-activation pair threading
does not change shapes. -/
def blockShape (cin cout : ℕ) (f : ℕ → ℕ) : Shape → Option Shape
  | [n, c, l] => if c = cin then some [n, cout, f l] else none
  | _ => none

/-- `x.permute(0, 2, 1)` on a rank-3 input (source line 315). -/
def permute021 : Shape → Option Shape
  | [n, c, l] => some [n, l, c]
  | _ => none

/-- `nn.GRU(input_size, hidden_size=g, bidirectional, batch_first)` output
shape: `(n, l, input_size)` maps to `(n, l, 2*g)`. -/
def gruShape (inSize g : ℕ) : Shape → Option Shape
  | [n, l, c] => if c = inSize then some [n, l, 2 * g] else none
  | _ => none

/-- `nn.BatchNorm1d(features)` accepts a rank-2 `(n, features)` or rank-3
`(n, features, l)` input and preserves the shape; any other rank is a
runtime error. -/
def batchNorm1dShape (features : ℕ) : Shape → Option Shape
  | [n, c] => if c = features then some [n, c] else none
  | [n, c, l] => if c = features then some [n, c, l] else none
  | _ => none

/-- `nn.Linear(din, dout)` on inputs of rank 1 to 3: the last axis must be
`din` and becomes `dout`. -/
def linearShape (din dout : ℕ) : Shape → Option Shape
  | [f] => if f = din then some [dout] else none
  | [n, f] => if f = din then some [n, dout] else none
  | [n, l, f] => if f = din then some [n, l, dout] else none
  | _ => none

/-- Shape behavior of the contextual attention pooling selected by
`attention_type`.  For `v1` the pooling reuses the `MultiHeadAttention` of
`src/layers/MultiHeadAttention.py` with a derived query of length 1, so
its result shape is `mhaReturnShape n 1 dm` (the squeeze of source line
128).  Modelled from the spec for `v2` to `v5` (their wrapper sources are
not under `src/`): they return the pooled vector `(n, d_model)`. -/
def attnPoolShape (atype : String) (dmodel : ℕ) : Shape → Option Shape
  | [n, _t, dm] =>
      if dm = dmodel then
        if atype = "v1" then some (mhaReturnShape n 1 dm) else some [n, dm]
      else none
  | _ => none

/-- Shape-level semantics of `FinalModel.forward` (source lines 289 to
324): optional starting convolution, five residual blocks with the
channel plan of lines 62 to 70, `permute(0, 2, 1)`, bidirectional GRU,
activation and dropout (shape preserving), contextual attention pooling,
`BatchNorm1d` block, final linear classifier (the optional final
activation preserves the shape).  `f1` to `f5` are the length maps of the
five blocks; `none` models a runtime shape error. -/
def forwardShape (c : FMConfig) (f1 f2 f3 f4 f5 : ℕ → ℕ) (x : Shape) :
    Option Shape :=
  let o1 := if c.varyChannels then 24 else 12
  let o2 := if c.varyChannels then 48 else 12
  let o3 := if c.varyChannels then 48 else 12
  let o4 := if c.varyChannels then 24 else 12
  let o5 := 12
  (if c.usePreActivationDesign ∧ c.usePreConv then
      conv1dShape c.inputChannel c.preConvKernel x
    else some x).bind fun x1 =>
  (blockShape c.inputChannel o1 f1 x1).bind fun x2 =>
  (blockShape o1 o2 f2 x2).bind fun x3 =>
  (blockShape o2 o3 f3 x3).bind fun x4 =>
  (blockShape o3 o4 f4 x4).bind fun x5 =>
  (blockShape o4 o5 f5 x5).bind fun x6 =>
  (permute021 x6).bind fun x7 =>
  (gruShape o5 c.gruUnits x7).bind fun x8 =>
  (attnPoolShape c.attentionType (2 * c.gruUnits) x8).bind fun x9 =>
  (batchNorm1dShape (2 * c.gruUnits) x9).bind fun x10 =>
  linearShape (2 * c.gruUnits) c.numClasses x10

/-- The default configuration of `FinalModel.__init__` (source lines 12 to
26). -/
def defaultConfig : FMConfig where
  applyFinalActivation := false
  multiLabelTraining := true
  inputChannel := 12
  numClasses := 9
  downSample := "conv"
  varyChannels := true
  posSkip := "not_last"
  normType := "BN"
  normBeforeAct := some true
  usePreActivationDesign := true
  usePreConv := true
  preConvKernel := 16
  gruUnits := 12
  heads := 3
  discardFCBeforeMH := false
  useReducedHeadDims := none
  attentionActivationFunction := none
  attentionType := "v2"

/-- The default configuration with the custom attention variant v1, whose
pooling goes through the `MultiHeadAttention` of the shown source. -/
def v1Config : FMConfig := { defaultConfig with attentionType := "v1" }

/-- A non-pre-activation configuration requesting normalization before
activation. -/
def nonPreActBeforeConfig : FMConfig :=
  { defaultConfig with
    usePreActivationDesign := false
    usePreConv := false
    normBeforeAct := some true }

/-- A non-pre-activation configuration requesting normalization strictly
after activation. -/
def nonPreActAfterConfig : FMConfig :=
  { defaultConfig with
    usePreActivationDesign := false
    usePreConv := false
    normBeforeAct := some false }

/-- Value-level wiring of `FinalModel.forward` (source lines 289 to 324)
over an abstract carrier `α`: `pc` is the starting convolution, `bl1` to
`bl4` the four first-stage pre-activation blocks mapping an
(input, residual) pair to an (output, residual) pair, `b5p` the pair form
of the second-stage block (`pos_skip = "all"`), `b5s` its single-input
form (`pos_skip = "not_last"`), `s1` to `s5` the single-input blocks of
the non-pre-activation branch, and `post` the rest of the pipeline
(permute, GRU, attention, normalization, classifier, optional final
activation).  `none` models the runtime type error of the unreachable
`pos_skip` fall-through in the pre-activation branch, where `x` would
remain a pair. -/
def forwardWiring {α β : Type} (preAct : Bool) (posSkip : String)
    (usePreConv : Bool) (pc : α → α)
    (bl1 bl2 bl3 bl4 : α × α → α × α) (b5p : α × α → α × α) (b5s : α → α)
    (s1 s2 s3 s4 s5 : α → α) (post : α → β) (x : α) : Option β :=
  if preAct then
    let x0 := if usePreConv then pc x else x
    let p1 := bl1 (x0, x0)
    let p2 := bl2 p1
    let p3 := bl3 p2
    let p4 := bl4 p3
    if posSkip = "all" then some (post (b5p p4).1)
    else if posSkip = "not_last" then some (post (b5s p4.1))
    else none
  else
    some (post (s5 (s4 (s3 (s2 (s1 x))))))

/-- Whether the character list starts with the pattern (second argument). -/
def charsStartWith : List Char → List Char → Bool
  | _, [] => true
  | [], _ :: _ => false
  | b :: bs, a :: as => a == b && charsStartWith bs as

/-- Whether the pattern (second argument) occurs contiguously in the
character list. -/
def charsContain : List Char → List Char → Bool
  | [], sub => sub.isEmpty
  | b :: bs, sub => charsStartWith (b :: bs) sub || charsContain bs sub

/-- An error message names a value when the value occurs verbatim in the
message text. -/
abbrev mentionsValue (msg val : String) : Prop :=
  charsContain msg.toList val.toList = true

/-- The default configuration with an unsupported downsampling tag. -/
def badDownConfig : FMConfig := { defaultConfig with downSample := "foo" }

/-- The default configuration with an unsupported attention type tag. -/
def badAttnConfig : FMConfig := { defaultConfig with attentionType := "v9" }

/-- The default configuration with an unsupported normalization tag. -/
def badNormConfig : FMConfig := { defaultConfig with normType := "LN" }

/-- C3: head-split then head-concatenate is a left inverse: for every
rank-3 tensor `t` of shape `(b, l, h*d)`, stacking the `h` feature chunks
onto the batch axis and then concatenating the `h` batch chunks back onto
the feature axis yields `t` again, with batch and sequence dimensions
preserved and feature width `h*d` restored (by the stated types). -/
theorem C3_head_split_concat_left_inverse (h b l d : ℕ) (t : T3 b l (h * d)) :
    headConcat h (headSplit h t) = t := by
  funext i j k
  have hb : 0 < b := Nat.pos_of_ne_zero (by rintro rfl; exact i.elim0)
  simp only [headConcat, headSplit]
  have e1 : (k.val / d * b + i.val) % b = i.val := by
    rw [Nat.mul_comm (k.val / d) b, Nat.mul_add_mod, Nat.mod_eq_of_lt i.isLt]
  have e2 : (k.val / d * b + i.val) / b * d + k.val % d = k.val := by
    rw [Nat.mul_comm (k.val / d) b, Nat.mul_add_div hb,
      Nat.div_eq_of_lt i.isLt, Nat.add_zero, Nat.mul_comm (k.val / d) d,
      Nat.div_add_mod]
  have hgen : ∀ (x : Fin b) (y : Fin (h * d)), x = i → y = k →
      t x j y = t i j k := by
    intro x y hx hy; rw [hx, hy]
  exact hgen _ _ (Fin.ext e1) (Fin.ext e2)

/-- C2: the attention core with dropout disabled returns
`softmax(Q.K^T / sqrt(dk)) . V` with the softmax normalizing each query
row over the key axis: the embedded source computation `sdpCore` agrees
pointwise with the formula as the spec words it, and (second conjunct) the
forward pass without dropout is exactly `W_o` applied to the concatenated
heads of that core.  The result shape `(N, Lq, dv)` is forced by the type. -/
theorem C2_attention_core_is_softmax_weighted_sum :
    (∀ (n lq lk dk dv : ℕ) (e : ℚ → ℚ) (s : ℚ)
       (Q : T3 n lq dk) (K : T3 n lk dk) (V : T3 n lk dv),
       sdpCore e s Q K V = attentionSpecFormula e s Q K V) ∧
    (∀ (dm dk v h b lq lk : ℕ) (e th : ℚ → ℚ) (s : ℚ) (dFC : Bool)
       (w : MHAWeights dm dk v h) (mask : Option String)
       (query : T3 b lq dm) (key : T3 b lk dm) (value : T3 b lk dm),
       (mhaForward e th s dFC w none mask query key value).1 =
         linear3 w.Wo w.bo (headConcat h
           (sdpCore e s (headSplit h (linear3 w.Wq w.bq query))
             (headSplit h (keyProjection th dFC w.Wk w.bk key))
             (headSplit h (linear3 w.Wv w.bv value))))) := by
  constructor
  · intro n lq lk dk dv e s Q K V
    funext i j k
    simp only [sdpCore, attentionSpecFormula, bmm, softmax, scaleDiv,
      transpose12]
  · intro dm dk v h b lq lk e th s dFC w mask query key value
    rfl

/-- C7: after normalization, every attention-weight row (per head, per
query position) is non-negative and sums to 1, for each variant v1 to v5,
provided the exponential is positive and the key axis is non-empty. -/
theorem C7_attention_weight_rows_sum_one {n l d : ℕ} (var : AttnVariant)
    (e : ℚ → ℚ) (t : T3 n l d) (he : ∀ x, 0 < e x) (hd : 0 < d)
    (i : Fin n) (j : Fin l) :
    (∑ k : Fin d, variantNormalize var e t i j k) = 1 ∧
    ∀ k : Fin d, 0 ≤ variantNormalize var e t i j k := by
  have hne : (Finset.univ : Finset (Fin d)).Nonempty :=
    ⟨⟨0, hd⟩, Finset.mem_univ _⟩
  have hsum : 0 < ∑ m : Fin d, e (t i j m) :=
    Finset.sum_pos (fun m _ => he _) hne
  constructor
  · show (∑ k : Fin d, e (t i j k) / ∑ m : Fin d, e (t i j m)) = 1
    rw [← Finset.sum_div, div_self (ne_of_gt hsum)]
  · intro k
    exact div_nonneg (le_of_lt (he _)) (le_of_lt hsum)

/-- Witness for C7 at a concrete input: variant v1, constant exponential,
all-zero scores at sizes 1 x 1 x 1. -/
theorem C7_witness :
    (∑ k : Fin 1, variantNormalize AttnVariant.v1 (fun _ => 1) (zeroT3 1 1 1) 0 0 k) = 1 ∧
    ∀ k : Fin 1, 0 ≤ variantNormalize AttnVariant.v1 (fun _ => 1) (zeroT3 1 1 1) 0 0 k :=
  C7_attention_weight_rows_sum_one AttnVariant.v1 (fun _ => 1) (zeroT3 1 1 1)
    (fun _ => one_pos) Nat.one_pos 0 0

/-- C5: the `mask` parameter of `MultiHeadAttention.forward` is accepted
but never read: the output and stored scores for `mask="subsequent"` are
identical to those for `mask=None`, and at a concrete input the attention
weight at a disallowed (subsequent) position is 1/2, not 0, under
`mask="subsequent"`. -/
theorem C5_mask_argument_never_applied :
    (∀ (dm dk v h b lq lk : ℕ) (e th : ℚ → ℚ) (s : ℚ) (dFC : Bool)
       (w : MHAWeights dm dk v h)
       (drop : Option (ℚ × (Fin (h * b) → Fin lq → Fin lk → Bool)))
       (query : T3 b lq dm) (key : T3 b lk dm) (value : T3 b lk dm),
       mhaForward e th s dFC w drop (some "subsequent") query key value =
         mhaForward e th s dFC w drop none query key value) ∧
    (mhaForward (fun _ => 1) id 1 false w0 none
        (some "subsequent") (zeroT3 1 2 1) (zeroT3 1 2 1) (zeroT3 1 2 1)).2
      ⟨0, Nat.one_pos⟩ ⟨0, by omega⟩ ⟨1, by omega⟩ = 1 / 2 := by
  constructor
  · intro dm dk v h b lq lk e th s dFC w drop query key value
    rfl
  · simp [mhaForward, softmax, scaleDiv, bmm, transpose12, headSplit,
      keyProjection, linear3, mapT3, w0, zeroT3, Fin.sum_univ_two]

/-- C8 (amended): the returned tensor is the `W_o` output with every
singleton dimension removed (`Tensor.squeeze()` with no arguments): for
query length 1, batch `b > 1` and `d_model > 1` the return shape is
`(b, d_model)`, while for batch size 1 the batch dimension is removed as
well, leaving shape `(d_model)`. -/
theorem C8_return_shape_squeeze_all_singletons (b dm : ℕ)
    (hb : 1 < b) (hdm : 1 < dm) :
    mhaReturnShape b 1 dm = [b, dm] ∧ mhaReturnShape 1 1 dm = [dm] := by
  constructor
  · simp [mhaReturnShape, squeezeShape, Nat.ne_of_gt hb, Nat.ne_of_gt hdm]
  · simp [mhaReturnShape, squeezeShape, Nat.ne_of_gt hdm]

/-- Witness for C8 at `b = 2`, `d_model = 24`. -/
theorem C8_witness :
    mhaReturnShape 2 1 24 = [2, 24] ∧ mhaReturnShape 1 1 24 = [24] :=
  C8_return_shape_squeeze_all_singletons 2 24 (by decide) (by decide)

/-- C8 counterexample: at batch 1, query length 1, `d_model = 24`, the
forward pass returns shape `(24)` (rank 1), not `(1, 24)` as removing
exactly the query-length singleton dimension and no other would give. -/
theorem C8_counterexample :
    mhaReturnShape 1 1 24 = [24] ∧ mhaReturnShape 1 1 24 ≠ [1, 24] := by
  decide

/-- C9 (amended): when no dropout is applied in the call (module built
with `dropout=None`, or eval mode), the `_scores` field after
`MultiHeadAttention.forward` holds exactly the softmax-normalized
attention weights of that call. -/
theorem C9_scores_state_without_dropout
    {dm dk v h b lq lk : ℕ} (e th : ℚ → ℚ) (s : ℚ) (dFC : Bool)
    (w : MHAWeights dm dk v h) (mask : Option String)
    (query : T3 b lq dm) (key : T3 b lk dm) (value : T3 b lk dm) :
    (mhaForward e th s dFC w none mask query key value).2 =
      mhaNormalizedScores e th s dFC w query key := rfl

/-- C9 counterexample: with dropout active (p = 1/2 and a realized mask
that drops the single entry), the `_scores` field after the call holds 0,
while the softmax-normalized weight of that call is 1, so the field does
not hold the normalized weights. -/
theorem C9_counterexample :
    (mhaForward (fun _ => 1) id 1 false w0
        (some (1 / 2, fun _ _ _ => true)) none
        (zeroT3 1 1 1) (zeroT3 1 1 1) (zeroT3 1 1 1)).2
      ⟨0, Nat.one_pos⟩ ⟨0, Nat.one_pos⟩ ⟨0, Nat.one_pos⟩ = 0 ∧
    mhaNormalizedScores (fun _ => 1) id 1 false w0
        (zeroT3 1 1 1) (zeroT3 1 1 1)
      ⟨0, Nat.one_pos⟩ ⟨0, Nat.one_pos⟩ ⟨0, Nat.one_pos⟩ = 1 := by
  constructor
  · simp [mhaForward, applyDropout]
  · simp [mhaNormalizedScores, softmax, scaleDiv, bmm, transpose12,
      headSplit, keyProjection, linear3, mapT3, w0, zeroT3]

/-- A configuration that constructs successfully has an attention type tag
among v1 to v5 (every other tag is rejected by the `ValueError` of source
line 275). -/
theorem initModel_ok_attentionTag {c : FMConfig} (h : initModel c = .ok ()) :
    validAttentionTag c.attentionType := by
  unfold initModel at h
  split_ifs at h with h1 h2 h3 h4 h5 h6 h7 h8 <;>
    first
      | exact Except.noConfusion h
      | exact h8

set_option maxHeartbeats 1600000 in
/-- C1 (amended): for every configuration accepted by
`FinalModel.__init__` and every batch size `b >= 2`, the forward pass on a
correctly-shaped input `(b, input_channels, L)` (with `L` at least the
pre-convolution kernel) returns shape `(b, num_classes)`; batch size 1 is
excluded because the `.squeeze()` of the v1 attention collapses the batch
axis (see the counterexample). -/
theorem C1_valid_config_forward_shape (c : FMConfig) (f1 f2 f3 f4 f5 : ℕ → ℕ)
    (b L : ℕ) (hok : initModel c = .ok ()) (hb : 2 ≤ b)
    (hkL : c.preConvKernel ≤ L) (hkpos : 0 < c.preConvKernel) :
    forwardShape c f1 f2 f3 f4 f5 [b, c.inputChannel, L] =
      some [b, c.numClasses] := by
  have hat := initModel_ok_attentionTag hok
  have hb1 : b ≠ 1 := by omega
  have hg1 : 2 * c.gruUnits ≠ 1 := by omega
  simp only [forwardShape]
  have hpre : (if c.usePreActivationDesign ∧ c.usePreConv then
      conv1dShape c.inputChannel c.preConvKernel [b, c.inputChannel, L]
    else some [b, c.inputChannel, L]) = some [b, c.inputChannel,
      if c.usePreActivationDesign ∧ c.usePreConv then
        L - c.preConvKernel + 1 else L] := by
    by_cases hpc : c.usePreActivationDesign ∧ c.usePreConv
    · simp [hpc, conv1dShape, hkpos, hkL]
    · simp [hpc]
  rw [hpre]
  rcases hat with h | h | h | h | h <;>
  simp [h, blockShape, permute021, gruShape, attnPoolShape,
    batchNorm1dShape, linearShape, mhaReturnShape, squeezeShape,
    List.filter_cons, hb1, hg1]

/-- Witness for C1: the default configuration at batch 2, 12 input
channels, sequence length 100. -/
theorem C1_witness :
    forwardShape defaultConfig id id id id id [2, 12, 100] = some [2, 9] :=
  C1_valid_config_forward_shape defaultConfig id id id id id 2 100 rfl
    (by omega) (by decide) (by decide)

/-- C1 counterexample: the default configuration with attention variant
v1 is accepted by construction, yet the forward pass at batch size 1
fails at run time: the `.squeeze()` of source line 128 collapses the
batch axis, and `BatchNorm1d` then rejects the rank-1 input. -/
theorem C1_counterexample :
    initModel v1Config = .ok () ∧
    forwardShape v1Config id id id id id [1, 12, 100] = none :=
  ⟨rfl, rfl⟩

/-- C4 (amended): without the pre-activation design the source requires
`norm_before_act` to be `None` or `True` (assert at lines 55 to 56, whose
message says norm after activation is impossible without pre-activation):
requesting `norm_before_act=False` fails construction with that message,
while `norm_before_act=True` constructs successfully — the opposite
polarity of the claim. -/
theorem C4_norm_before_act_validation (c : FMConfig)
    (h1 : validDownSampleTag c.downSample)
    (h2 : c.useReducedHeadDims = none)
    (h3 : c.attentionActivationFunction = none)
    (hpre : c.usePreActivationDesign = false) :
    (c.normBeforeAct = some false →
      initModel c =
        .error "Norm after activation not possible without preactivation design") ∧
    (c.normBeforeAct = some true → validAttentionTag c.attentionType →
      initModel c = .ok ()) := by
  constructor
  · intro hnb
    simp [initModel, h1, h2, h3, hpre, hnb, optNatTruthy]
  · intro hnb hat
    simp [initModel, h1, h2, h3, hpre, hnb, hat, optNatTruthy]

/-- Witness for C4 at the two concrete non-pre-activation
configurations. -/
theorem C4_witness :
    initModel nonPreActAfterConfig =
      .error "Norm after activation not possible without preactivation design" ∧
    initModel nonPreActBeforeConfig = .ok () :=
  ⟨(C4_norm_before_act_validation nonPreActAfterConfig (Or.inl rfl) rfl rfl
      rfl).1 rfl,
   (C4_norm_before_act_validation nonPreActBeforeConfig (Or.inl rfl) rfl rfl
      rfl).2 rfl (Or.inr (Or.inl rfl))⟩

/-- C4 counterexample: `use_pre_activation_design=False` with
`norm_before_act=True` constructs successfully (the claim says it must
fail), and with `norm_before_act=False` construction fails (the claim
says it must succeed). -/
theorem C4_counterexample :
    initModel nonPreActBeforeConfig = .ok () ∧
    initModel nonPreActAfterConfig =
      .error "Norm after activation not possible without preactivation design" :=
  ⟨rfl, rfl⟩

/-- C6 (amended): an invalid `down_sample` tag fails construction
immediately but with a fixed message that does not name the value; an
invalid `attention_type` tag (in an otherwise valid configuration) fails
construction with the `ValueError` message that names the value; an
invalid `norm_type` is never itself validated — with the pre-activation
design and the pre-convolution enabled, construction fails with a
`NameError` that does not name the value. -/
theorem C6_invalid_enum_errors :
    (∀ c : FMConfig, ¬validDownSampleTag c.downSample →
       initModel c =
         .error "Downsampling should either be conv or max_pool or avg_pool") ∧
    (∀ c : FMConfig, validDownSampleTag c.downSample →
       c.useReducedHeadDims = none → c.attentionActivationFunction = none →
       c.posSkip = "not_last" → c.normBeforeAct = some true →
       validNormTag c.normType → ¬validAttentionTag c.attentionType →
       initModel c =
         .error ("Attention type " ++ c.attentionType ++ " not supported!")) ∧
    (∀ c : FMConfig, validDownSampleTag c.downSample →
       c.useReducedHeadDims = none → c.attentionActivationFunction = none →
       c.posSkip = "not_last" → ¬validNormTag c.normType →
       c.usePreActivationDesign = true → c.usePreConv = true →
       initModel c = .error "NameError: name starting_norm is not defined") := by
  refine ⟨?_, ?_, ?_⟩
  · intro c h1
    simp [initModel, h1]
  · intro c h1 h2 h3 h4 h5 h6 h7
    simp [initModel, h1, h2, h3, h4, h5, h6, h7, optNatTruthy]
  · intro c h1 h2 h3 h4 h5 h6 h7
    simp [initModel, h1, h2, h3, h4, h5, h6, h7, optNatTruthy]

/-- Witness for C6 at three concrete invalid configurations. -/
theorem C6_witness :
    initModel badDownConfig =
      .error "Downsampling should either be conv or max_pool or avg_pool" ∧
    initModel badAttnConfig = .error "Attention type v9 not supported!" ∧
    initModel badNormConfig =
      .error "NameError: name starting_norm is not defined" :=
  ⟨C6_invalid_enum_errors.1 badDownConfig (by decide),
   C6_invalid_enum_errors.2.1 badAttnConfig (by decide) rfl rfl rfl rfl
     (by decide) (by decide),
   C6_invalid_enum_errors.2.2 badNormConfig (by decide) rfl rfl rfl
     (by decide) rfl rfl⟩

/-- C6 counterexample: for `down_sample="foo"` construction fails with the
fixed assert message of line 36, which does not mention "foo"; for
`norm_type="LN"` (with the default pre-activation and pre-convolution)
construction fails with a `NameError` that does not mention "LN" — so
construction errors do not always name the invalid value. -/
theorem C6_counterexample :
    initModel badDownConfig =
      .error "Downsampling should either be conv or max_pool or avg_pool" ∧
    ¬mentionsValue "Downsampling should either be conv or max_pool or avg_pool" "foo" ∧
    initModel badNormConfig =
      .error "NameError: name starting_norm is not defined" ∧
    ¬mentionsValue "NameError: name starting_norm is not defined" "LN" :=
  ⟨rfl, by decide, rfl, by decide⟩

/-- C10: in the pre-activation design, the first residual block is invoked
with the pair `(x, x)` where `x` is the input after the optional
pre-convolution, and each later first-stage block receives the
(output, residual) pair of its predecessor unchanged; the second-stage
block then consumes the final pair (whole, for `pos_skip="all"`) or its
output component (for `pos_skip="not_last"`). -/
theorem C10_preactivation_residual_seeding {α β : Type}
    (posSkip : String) (upc : Bool) (pc : α → α)
    (bl1 bl2 bl3 bl4 : α × α → α × α) (b5p : α × α → α × α) (b5s : α → α)
    (s1 s2 s3 s4 s5 : α → α) (post : α → β) (x : α)
    (hps : posSkip = "all" ∨ posSkip = "not_last") :
    forwardWiring true posSkip upc pc bl1 bl2 bl3 bl4 b5p b5s
        s1 s2 s3 s4 s5 post x =
      some (post
        (if posSkip = "all" then
          (b5p (bl4 (bl3 (bl2 (bl1
            (if upc then pc x else x, if upc then pc x else x)))))).1
        else
          b5s (bl4 (bl3 (bl2 (bl1
            (if upc then pc x else x, if upc then pc x else x))))).1)) := by
  rcases hps with h | h <;> subst h <;> simp [forwardWiring]

/-- Witness for C10: identity blocks over ℕ with `pos_skip="not_last"` and
no pre-convolution thread the input through unchanged. -/
theorem C10_witness :
    forwardWiring true "not_last" false (id : ℕ → ℕ) id id id id id id
      id id id id id id 3 = some 3 := by
  simpa using C10_preactivation_residual_seeding "not_last" false
    (id : ℕ → ℕ) id id id id id id id id id id id id 3 (Or.inr rfl)

end Macro
